import Mathlib

/-!
Verification of the py-jsonapi engine (jsonapi/base) against its
natural-language specification.

The Python sources are shallowly embedded: JSON documents become the
inductive type `JVal`, Python dictionaries become association lists
(first component = key, insertion ordered, later inserts overwrite),
Python sets become duplicate-free lists built by `setAdd`, and raisable
Python code becomes `Except PyExc`.  Each definition is translated from
the named function of the repository; comments cite the file and lines.
-/

namespace PyJsonApi

/-- A JSON value, as handled by api.load_json / api.dump_json
    (jsonapi/base/api.py, json.loads / json.dumps). -/
inductive JVal where
  | null
  | bool (b : Bool)
  | num (n : Int)
  | str (s : String)
  | arr (xs : List JVal)
  | obj (fields : List (String × JVal))

/-- An identifier tuple (typename, id), as used throughout
    jsonapi/base/database.py (for example Database.get: "An identifier
    tuple: (typename, id)"). -/
structure Identifier where
  typename : String
  rid : String
deriving DecidableEq, Repr

/-- The value of a relationship of one resource, already normalized to
    identifiers (jsonapi/marker/serializer.py get_relative_id /
    get_relative_ids normalize via ensure_identifier).  A to-one
    relationship holds one optional target, a to-many relationship a list
    of targets. -/
inductive RelValue where
  | toOne (target : Option Identifier)
  | toMany (targets : List Identifier)
deriving DecidableEq

/-- A resource: its identifier, its attribute values (what
    Attribute.get returns for each schema attribute name) and its
    relationship values (what the relationship markers return,
    jsonapi/base/schema.py). -/
structure Resource where
  ident : Identifier
  attrs : List (String × JVal)
  rels : List (String × RelValue)

/-- jsonapi.base.errors.Error (errors.py 64-124): the structured failure
    data every API error carries.  `title` defaults to the class name in
    the source; the concrete error constructors below fill it in. -/
structure JApiError where
  http_status : Nat := 500
  idOpt : Option String := none
  about : String := ""
  code : Option String := none
  title : String
  detail : String := ""
  source_pointer : Option String := none
  source_parameter : Option String := none
  meta : List (String × JVal) := []

/-- The exceptions that can escape the embedded code.  `japi` is a
    jsonapi.base.errors.Error, `japiList` a jsonapi.base.errors.ErrorList;
    the others are plain Python exceptions (which the API never converts
    into documents). -/
inductive PyExc where
  | japi (e : JApiError)
  | japiList (es : List JApiError)
  | attributeError (name : String)
  | typeError (msg : String)
  | keyError (key : String)
  | nameError (name : String)
  | valueError (msg : String)
  | unicodeDecodeError

/-! Association-list helpers: the shallow embedding of Python dict and
set operations used by the sources. -/

/-- Dictionary lookup, d[k] as an Option (d.get(k)). -/
def lookupA {α β : Type} [DecidableEq α] : List (α × β) → α → Option β
  | [], _ => none
  | p :: rest, k => if p.1 = k then some p.2 else lookupA rest k

/-- Dictionary store d[k] = v: overwrite in place if the key exists,
    append otherwise (Python dicts keep insertion order). -/
def dictInsert {α β : Type} [DecidableEq α] (d : List (α × β)) (k : α) (v : β) :
    List (α × β) :=
  if k ∈ d.map Prod.fst then
    d.map (fun p => if p.1 = k then (k, v) else p)
  else
    d ++ [(k, v)]

/-- Python dict.update(d₂): store every pair of d₂ into d₁ in order. -/
def dictUpdate {α β : Type} [DecidableEq α] (d₁ d₂ : List (α × β)) : List (α × β) :=
  d₂.foldl (fun d p => dictInsert d p.1 p.2) d₁

/-- Python set.add: insert unless already present. -/
def setAdd {α : Type} [DecidableEq α] (s : List α) (x : α) : List α :=
  if x ∈ s then s else s ++ [x]

/-- Python set.update: add every element. -/
def setUnion {α : Type} [DecidableEq α] (s : List α) (xs : List α) : List α :=
  xs.foldl setAdd s

/-! Concrete error constructors from jsonapi/base/errors.py.  Each class
only fixes the http_status (and, for the special errors, the detail);
`title` defaults to the class name (Error.__init__, errors.py 119). -/

/-- errors.NotFound (errors.py 261-265): http_status 404. -/
def notFoundError : JApiError := { http_status := 404, title := "NotFound" }

/-- errors.BadRequest (errors.py 247-251): http_status 400. -/
def badRequestError (detail : String := "") (source_parameter : Option String := none) :
    JApiError :=
  { http_status := 400, title := "BadRequest", detail := detail,
    source_parameter := source_parameter }

/-- errors.UnresolvableIncludePath (errors.py 311-328): a BadRequest
    (http_status 400) whose detail names the dot-joined include path.
    The source detail text wraps the path in single quotes. -/
def unresolvableIncludePath (include_path : List String) : JApiError :=
  { http_status := 400, title := "UnresolvableIncludePath",
    detail := "The include path " ++ String.intercalate "." include_path
      ++ " does not exist." }

/-- errors.ResourceNotFound (errors.py 390-401): a NotFound
    (http_status 404) whose detail names the identifier. -/
def resourceNotFound (identifier : Identifier) : JApiError :=
  { http_status := 404, title := "ResourceNotFound",
    detail := "The resource (type=" ++ identifier.typename ++ ", id="
      ++ identifier.rid ++ ") does not exist." }

/-! Claim C10: Request.json / Request.has_json
(jsonapi/base/request.py 469-501). -/

/-- The request body: Request.__init__ stores either bytes or an
    already-decoded string (request.py 63-68, json accessor 479-483). -/
inductive ReqBody where
  | ofString (s : String)
  | ofBytes (bs : ByteArray)

/-- The body decoding step of Request.json (request.py 480-483):
    `self.body.decode()` for bytes (UnicodeDecodeError = none), the body
    itself when it is already a str. -/
def decodeBody : ReqBody → Option String
  | .ofString s => some s
  | .ofBytes bs => String.fromUTF8? bs

/-- The try-block of Request.json (request.py 479-485): decode the body,
    then parse it with api.load_json.  `loadJson` embeds
    api.load_json (api.py 308-323, json.loads), returning none exactly
    when the parser raises a ValueError. -/
def requestJsonTry (loadJson : String → Option JVal) (body : ReqBody) :
    Except PyExc JVal :=
  match decodeBody body with
  | none => .error .unicodeDecodeError
  | some text =>
    match loadJson text with
    | none => .error (.valueError "load_json")
    | some j => .ok j

/-- The exception classes named in the except clause of Request.json
    (request.py 486): UnicodeDecodeError and ValueError. -/
def caughtByRequestJson : PyExc → Bool
  | .unicodeDecodeError => true
  | .valueError _ => true
  | _ => false

/-- Request.json together with the has_json flag it sets
    (request.py 469-501): on a caught exception the result is
    (None, False); on success (parsed document, True).  An uncaught
    exception would propagate (the .error branch). -/
def requestJson (loadJson : String → Option JVal) (body : ReqBody) :
    Except PyExc (Option JVal × Bool) :=
  match requestJsonTry loadJson body with
  | .ok j => .ok (some j, true)
  | .error e => if caughtByRequestJson e then .ok (none, false) else .error e

/-! Claim C8: Pagination (jsonapi/base/pagination.py). -/

/-- The argument pair of Pagination._page_link (pagination.py 89-101):
    the page number and page size encoded into each link uri. -/
structure PageLink where
  number : Nat
  size : Nat
deriving DecidableEq, Repr

/-- Pagination.__init__ (pagination.py 62-87).  total_pages is
    math.ceil(total_resources / page_size), on naturals
    (total + size - 1) / size. -/
structure Pagination where
  current_page : Nat
  page_size : Nat
  total_resources : Nat
  total_pages : Nat
  has_prev : Bool
  has_next : Bool

/-- Constructor of Pagination (pagination.py 62-87) from the request's
    japi_page_number and japi_page_size and the query_size result. -/
def Pagination.make (page size total : Nat) : Pagination :=
  { current_page := page
    page_size := size
    total_resources := total
    total_pages := (total + size - 1) / size
    has_prev := decide (page > 1)
    has_next := decide (page < (total + size - 1) / size) }

/-- Pagination.json_meta (pagination.py 103-113): the four meta keys in
    source order. -/
def Pagination.json_meta (p : Pagination) : List (String × JVal) :=
  [("total-pages", .num p.total_pages),
   ("total-resources", .num p.total_resources),
   ("page", .num p.current_page),
   ("page-size", .num p.page_size)]

/-- Pagination.json_links (pagination.py 115-128): self, first and last
    always; prev only when has_prev, next only when has_next. -/
def Pagination.json_links (p : Pagination) : List (String × PageLink) :=
  [("self", ⟨p.current_page, p.page_size⟩),
   ("first", ⟨1, p.page_size⟩),
   ("last", ⟨p.total_pages, p.page_size⟩)]
  ++ (if p.has_prev then [("prev", ⟨p.current_page - 1, p.page_size⟩)] else [])
  ++ (if p.has_next then [("next", ⟨p.current_page + 1, p.page_size⟩)] else [])

/-! Claim C6: Serializer.serialize_attributes / serialize_relationships
(jsonapi/base/serializer.py 327-437).  A schema (jsonapi/base/schema.py)
maps attribute names to Attribute markers (embedded as their get
accessor) and relationship names to relationship markers (embedded as
the normalized value their get accessor yields). -/

/-- jsonapi.base.schema.Schema, restricted to what the serializer reads:
    typename, id accessor, attribute dict and relationship dict. -/
structure Schema (ρ : Type) where
  typename : String
  idGet : ρ → String
  attributes : List (String × (ρ → JVal))
  relationships : List (String × (ρ → RelValue))

/-- The test `fields is None or name in fields` of serialize_attributes /
    serialize_relationships (serializer.py 388, 405). -/
def fieldIncluded (fields : Option (List String)) (name : String) : Bool :=
  match fields with
  | none => true
  | some fs => fs.contains name

/-- The parameter names of utilities.ensure_identifier_object
    (utilities.py 25): api and obj - two required positional
    parameters. -/
def ensureIdentifierObjectParams : List String := ["api", "obj"]

/-- The call ensure_identifier_object(relative) that
    Serializer.serialize_relationship issues (serializer.py 428 and
    433-434) with a single argument: the imported function has the two
    required parameters above, so the call raises TypeError before the
    body (which would build the type/id object of utilities.py 43-47)
    runs. -/
def ensure_identifier_object_call1 (relative : Identifier) : Except PyExc JVal :=
  if ensureIdentifierObjectParams.length ≤ 1 then
    .ok (.obj [("type", .str relative.typename), ("id", .str relative.rid)])
  else .error (.typeError "ensure_identifier_object missing argument obj")

/-- Serializer.serialize_attributes (serializer.py 376-391): iterate the
    attribute names in sorted() order, keep those admitted by *fields*,
    and emit name -> attr.get(resource). -/
def serialize_attributes {ρ : Type} (schema : Schema ρ) (resource : ρ)
    (fields : Option (List String)) : List (String × JVal) :=
  (((schema.attributes.map Prod.fst).insertionSort (· ≤ ·)).filter
      (fieldIncluded fields)).map
    (fun name => (name, ((lookupA schema.attributes name).getD (fun _ => .null)) resource))

/-- Serializer.serialize_relationship (serializer.py 409-437): a to-one
    relationship serializes data: null, and a to-many with no targets
    data: [], but any populated linkage goes through the one-argument
    ensure_identifier_object call and raises TypeError. -/
def serialize_relationship {ρ : Type} (schema : Schema ρ) (resource : ρ)
    (name : String) : Except PyExc JVal :=
  match ((lookupA schema.relationships name).getD (fun _ => .toOne none)) resource with
  | .toOne none => .ok (.obj [("data", .null)])
  | .toOne (some i) => do
      let idObj ← ensure_identifier_object_call1 i
      .ok (.obj [("data", idObj)])
  | .toMany is => do
      let idObjs ← is.mapM ensure_identifier_object_call1
      .ok (.obj [("data", .arr idObjs)])

/-- Serializer.serialize_relationships (serializer.py 393-407): iterate
    the relationship names in sorted() order, keep those admitted by
    *fields*, serializing each (the loop aborts at the first raise). -/
def serialize_relationships {ρ : Type} (schema : Schema ρ) (resource : ρ)
    (fields : Option (List String)) : Except PyExc (List (String × JVal)) :=
  (((schema.relationships.map Prod.fst).insertionSort (· ≤ ·)).filter
      (fieldIncluded fields)).mapM
    (fun name => do
      let v ← serialize_relationship schema resource name
      .ok (name, v))

/-- Serializer.serialize_resource (serializer.py 341-361): identifier
    members first, then the attributes object and the relationships
    object, each omitted entirely when empty. -/
def serialize_resource {ρ : Type} (schema : Schema ρ) (resource : ρ)
    (fields : Option (List String)) : Except PyExc (List (String × JVal)) := do
  let attributes := serialize_attributes schema resource fields
  let relationships ← serialize_relationships schema resource fields
  .ok ([("type", .str schema.typename), ("id", .str (schema.idGet resource))]
    ++ (if attributes.isEmpty then [] else [("attributes", .obj attributes)])
    ++ (if relationships.isEmpty then [] else [("relationships", .obj relationships)]))

/-! Claim C4: Request.japi_filters (jsonapi/base/request.py 298-392). -/

/-- The operator alternatives of VALUE_RE, in source order
    (request.py 351-355).  The docstring of japi_filters
    (request.py 307-325) additionally lists size and match, which do not
    appear in the regular expression. -/
def valueReOps : List String :=
  ["eq", "ne", "lt", "lte", "gt", "gte", "in", "nin", "all", "exists",
   "iexact", "contains", "icontains", "startswith", "istartswith",
   "endswith", "iendswith"]

/-- One character of the KEY_RE character class [A-z0-9_]
    (request.py 348; A-z is the source's class, which spans the ASCII
    range between Z and a as well). -/
def keyReChar (c : Char) : Bool :=
  (decide ('A' ≤ c) && decide (c ≤ 'z')) ||
  (decide ('0' ≤ c) && decide (c ≤ '9')) || c == '_'

/-- re.fullmatch of KEY_RE `filter[([A-z0-9_]+)]` against a query key
    (request.py 348, 358), returning the captured field name.  The
    match is computed on the character list of the key. -/
def parseFilterKey (key : String) : Option String :=
  let cs := key.toList
  if "filter[".toList.isPrefixOf cs && "]".toList.isSuffixOf cs then
    let field := (cs.drop 7).dropLast
    if field.length > 0 && field.all keyReChar then some (String.mk field)
    else none
  else none

/-- re.fullmatch of VALUE_RE `(eq:|ne:|...)(.*)` against the query value
    (request.py 351-355, 359), returning the operator (colon stripped,
    request.py 375-376) and the rest.  Alternation with backtracking on
    a fullmatch amounts to the first alternative that is a prefix of the
    value. -/
def matchFilterValue (value : String) : Option (String × String) :=
  (valueReOps.find? (fun op => (op ++ ":").toList.isPrefixOf value.toList)).map
    (fun op => (op, String.mk (value.toList.drop (op.toList.length + 1))))

/-- Request.japi_filters (request.py 298-392).  *query* maps each query
    key to its first value (request.py 357-359 reads values[0]);
    *loadJson* embeds api.load_json, none meaning the parser raised.
    The branch for a filter key whose value matches no operator
    (request.py 363-369) evaluates value_match.group(1) on None, so it
    raises AttributeError instead of the BadRequest it builds. -/
def japiFilters (loadJson : String → Option JVal) (query : List (String × String)) :
    Except PyExc (List (String × String × JVal)) :=
  query.foldlM (fun filters kv =>
    match parseFilterKey kv.1, matchFilterValue kv.2 with
    | some _, none => .error (.attributeError "group")
    | some field, some opRest =>
      match loadJson opRest.2 with
      | none => .error (.japi (badRequestError
          ("The value of the filter " ++ opRest.1 ++ " is not a JSON object.")
          (some kv.1)))
      | some v => .ok (filters ++ [(field, opRest.1, v)])
    | none, _ => .ok filters) []

/-! Claim C5: Unserializer.update_attributes
(jsonapi/base/serializer.py 197-224). -/

/-- The possible outcomes of one Attribute.set call
    (schema.py Attribute.set; serializer.py 215-220 catches
    errors.Error and errors.ErrorList). -/
inductive SetResult (σ : Type) where
  | ok (st : σ)
  | raiseError (e : JApiError)
  | raiseErrorList (es : List JApiError)

/-- The runtime state of an errors.ErrorList instance
    (errors.py 160-204): the collected errors, and whether the json
    cached_property has been materialized into the instance dict (the
    cached_property package stores the computed value there on first
    access). -/
structure ErrorListState where
  errors : List JApiError
  jsonCached : Bool

/-- errors.ErrorList() (errors.py 166-170) with no initial errors: the
    list is empty and json has never been computed. -/
def errorListNew : ErrorListState := { errors := [], jsonCached := false }

/-- ErrorList.append (errors.py 177-185): append the error, then
    `del self.json` to invalidate the cache.  cached_property is a
    non-data descriptor without __delete__, so when json was never
    computed the name is absent from the instance dict and the delete
    raises AttributeError; when it was computed, the cache entry is
    removed. -/
def errorListAppend (el : ErrorListState) (e : JApiError) :
    Except PyExc ErrorListState :=
  if el.jsonCached then .ok { errors := el.errors ++ [e], jsonCached := false }
  else .error (.attributeError "json")

/-- ErrorList.extend (errors.py 187-195): extend the list, then the
    same `del self.json` as in append. -/
def errorListExtend (el : ErrorListState) (es : List JApiError) :
    Except PyExc ErrorListState :=
  if el.jsonCached then .ok { errors := el.errors ++ es, jsonCached := false }
  else .error (.attributeError "json")

/-- The for-loop of update_attributes (serializer.py 213-220): walk the
    attributes object, apply each setter, and hand each raised
    Error/ErrorList to error_list.append / error_list.extend (whose own
    exceptions propagate, since the except clauses only catch
    errors.Error and errors.ErrorList around the setter); an unknown
    name reproduces the uncaught KeyError of
    `self.schema.attributes[name]` (serializer.py 214). -/
def update_attributes_go {σ : Type}
    (schemaAttributes : List (String × (JVal → σ → SetResult σ)))
    (acc : σ × ErrorListState) :
    List (String × JVal) → Except PyExc (σ × ErrorListState)
  | [] => .ok acc
  | nv :: rest =>
    match lookupA schemaAttributes nv.1 with
    | none => .error (.keyError nv.1)
    | some set =>
      match set nv.2 acc.1 with
      | .ok st => update_attributes_go schemaAttributes (st, acc.2) rest
      | .raiseError e => do
          let el ← errorListAppend acc.2 e
          update_attributes_go schemaAttributes (acc.1, el) rest
      | .raiseErrorList es => do
          let el ← errorListExtend acc.2 es
          update_attributes_go schemaAttributes (acc.1, el) rest

/-- Unserializer.update_attributes (serializer.py 197-224): create a
    fresh ErrorList, run the loop over the attributes object, then
    raise the ErrorList once if it is non-empty
    (serializer.py 222-223). -/
def update_attributes {σ : Type}
    (schemaAttributes : List (String × (JVal → σ → SetResult σ)))
    (resource : σ) (attributes_object : List (String × JVal)) : Except PyExc σ := do
  let res ← update_attributes_go schemaAttributes (resource, errorListNew)
    attributes_object
  if res.2.errors.isEmpty then .ok res.1 else .error (.japiList res.2.errors)

/-! Claims C7 and C9: Error.json, error_to_response
(jsonapi/base/errors.py 132-234) and the dispatch boundary
API.handle_request (jsonapi/base/api.py 435-463). -/

/-- Error.json (errors.py 132-157) in source member order.  The status
    member is stored as the integer http_status (errors.py 140), without
    a str() conversion.  The final branch (errors.py 155-156) writes
    `d["meta"] = meta`, but no local name meta exists, so a non-empty
    meta raises NameError. -/
def errorJson (e : JApiError) : Except PyExc JVal :=
  let d := (match e.idOpt with | some i => [("id", JVal.str i)] | none => [])
    ++ [("status", JVal.num e.http_status), ("title", JVal.str e.title)]
    ++ (if e.about ≠ "" then [("links", JVal.obj [("about", JVal.str e.about)])] else [])
    ++ (match e.code with | some c => [("code", JVal.str c)] | none => [])
    ++ (if e.detail ≠ "" then [("detail", JVal.str e.detail)] else [])
    ++ (if e.source_pointer.isSome || e.source_parameter.isSome then
          [("source", JVal.obj
            ((match e.source_pointer with
              | some p => [("pointer", JVal.str p)] | none => [])
            ++ (match e.source_parameter with
              | some p => [("parameter", JVal.str p)] | none => [])))]
        else [])
  if e.meta.isEmpty then .ok (.obj d) else .error (.nameError "meta")

/-- A raised jsonapi error at the dispatch boundary: either a single
    errors.Error or an errors.ErrorList. -/
inductive RaisedApiErr where
  | single (e : JApiError)
  | list (es : List JApiError)

/-- jsonapi.base.response.Response, as far as the claims read it:
    status, headers and the document handed to json_dumps. -/
structure ResponseModel where
  status : Nat
  headers : List (String × String)
  body : Option JVal

/-- errors.error_to_response (errors.py 207-234).  For a single Error
    the body is built from error.json and the status taken from
    error.http_status.  For an ErrorList the body is built from
    ErrorList.json (errors.py 197-204), but the subsequent
    Response(status=error.http_status, ...) reads an http_status
    attribute that ErrorList (errors.py 160-204) does not define, so it
    raises AttributeError. -/
def error_to_response : RaisedApiErr → Except PyExc ResponseModel
  | .single e => do
      let j ← errorJson e
      .ok { status := e.http_status,
            headers := [("content-type", "application/vnd.api+json")],
            body := some (.obj [("errors", .arr [j])]) }
  | .list es => do
      let _ ← es.mapM errorJson
      .error (.attributeError "http_status")

/-- API.handle_request (api.py 435-463), parameterized by the outcome of
    find_handler / handler construction / prepare / handle.  An Error or
    ErrorList is converted through error_to_response unless debug is
    set, in which case it is re-raised; every other exception is
    re-raised (api.py 459-461). -/
def handle_request (debug : Bool) (outcome : Except PyExc ResponseModel) :
    Except PyExc ResponseModel :=
  match outcome with
  | .ok r => .ok r
  | .error (.japi e) =>
      if debug then .error (.japi e) else error_to_response (.single e)
  | .error (.japiList es) =>
      if debug then .error (.japiList es) else error_to_response (.list es)
  | .error e => .error e

/-! The storage side shared by C1, C2, C3 and C9: an in-memory database
state mapping identifiers to resources. -/

/-- The database contents: the resources a backend session can find. -/
def Store := List Resource

/-- One backend lookup of an identifier (what the concrete adapter
    sessions do for a single id, e.g. mongoengine/database.py 190-195). -/
def storeGet (store : Store) (identifier : Identifier) : Option Resource :=
  store.find? (fun r => decide (r.ident = identifier))

/-! Claim C9: ResourceHandler construction and prepare
(jsonapi/base/handler/resource.py 28-61). -/

/-- The parameter names of ResourceHandler.__init__
    (handler/resource.py 33): api and request only. -/
def resourceHandlerInitParams : List String := ["self", "api", "request"]

/-- The keyword arguments API.handle_request passes when constructing
    the handler (api.py 447-449): api, db and request. -/
def handlerCtorKwargs : List String := ["api", "db", "request"]

/-- Python call binding for the handler construction
    HandlerType(api=..., db=..., request=...) (api.py 447-449) against
    ResourceHandler.__init__(self, api, request)
    (handler/resource.py 33): a keyword argument outside the parameter
    list raises TypeError. -/
def constructResourceHandler : Except PyExc Unit :=
  if handlerCtorKwargs.all (fun k => resourceHandlerInitParams.contains k) then .ok ()
  else .error (.typeError "init got an unexpected keyword argument db")

/-- The attribute names defined on Request (jsonapi/base/request.py):
    its constructor fields, cached properties and methods.  There is no
    media_type among them. -/
def requestAttrNames : List String :=
  ["api", "uri", "method", "headers", "body", "japi_uri_arguments",
   "parsed_uri", "query", "get_query_argument", "content_type",
   "japi_page_number", "japi_page_size", "japi_page_limit",
   "japi_page_offset", "japi_paginate", "japi_offset", "japi_limit",
   "japi_filters", "japi_fields", "japi_include", "japi_sort",
   "json", "has_json"]

/-- Python attribute lookup on the request object: a missing attribute
    raises AttributeError. -/
def requestGetAttr (name : String) : Except PyExc Unit :=
  if requestAttrNames.contains name then .ok ()
  else .error (.attributeError name)

/-- ResourceHandler.prepare (handler/resource.py 45-61): NotFound when
    the typename has no serializer; then the content-type check, which
    reads self.request.media_type (handler/resource.py 54) - an
    attribute Request does not define; then db.get, raising NotFound
    when the resource does not exist. -/
def resourceHandlerPrepare (store : Store) (serializerFound : Bool)
    (identifier : Identifier) : Except PyExc Resource := do
  if !serializerFound then
    .error (.japi notFoundError)
  else do
    let _ ← requestGetAttr "media_type"
    match storeGet store identifier with
    | none => .error (.japi notFoundError)
    | some r => .ok r

/-- The GET /api/&lt;type&gt;/&lt;id&gt; pipeline inside the try block of
    API.handle_request (api.py 445-452): construct the ResourceHandler,
    run prepare, then handle (never reached on the claim's inputs; its
    would-be response is the final argument). -/
def resourceGetPipeline (store : Store) (serializerFound : Bool)
    (identifier : Identifier) (getResponse : Resource → ResponseModel) :
    Except PyExc ResponseModel := do
  let _ ← constructResourceHandler
  let r ← resourceHandlerPrepare store serializerFound identifier
  .ok (getResponse r)

/-! Claim C3: BulkSession.get / BulkSession.get_many
(jsonapi/base/database.py 308-331) and
Unserializer.update_relationship (jsonapi/base/serializer.py 226-272). -/

/-- The parameter names of BulkSession.get (database.py 308):
    identifier only - there is no required parameter. -/
def bulkSessionGetParams : List String := ["self", "identifier"]

/-- The parameter names of BulkSession.get_many (database.py 316):
    identifiers only - there is no required parameter. -/
def bulkSessionGetManyParams : List String := ["self", "identifiers"]

/-- A call of BulkSession.get (database.py 308-314) with the given
    keyword-argument names: Python raises TypeError for a keyword
    outside the signature; otherwise the call delegates to the adapter
    session and returns the resource or None. -/
def bulkSessionGet (store : Store) (identifier : Identifier)
    (kwargs : List String) : Except PyExc (Option Resource) :=
  if kwargs.all (fun k => bulkSessionGetParams.contains k) then
    .ok (storeGet store identifier)
  else .error (.typeError "get got an unexpected keyword argument required")

/-- A call of BulkSession.get_many (database.py 316-331) with the given
    keyword-argument names: TypeError for a keyword outside the
    signature; otherwise each requested identifier maps to the found
    resource or None. -/
def bulkSessionGetMany (store : Store) (identifiers : List Identifier)
    (kwargs : List String) : Except PyExc (List (Identifier × Option Resource)) :=
  if kwargs.all (fun k => bulkSessionGetManyParams.contains k) then
    .ok (identifiers.map (fun i => (i, storeGet store i)))
  else .error (.typeError "get_many got an unexpected keyword argument required")

/-- The resource linkage inside a JSONapi relationship object:
    null / one identifier object for to-one, an array of identifier
    objects for to-many. -/
inductive RelLinkage where
  | one (target : Option Identifier)
  | many (targets : List Identifier)

/-- Unserializer.update_relationship (serializer.py 226-272) against a
    BulkSession, returning the relationship value that
    relationship.set receives.  Without a data key nothing happens
    (serializer.py 250-251).  The to-one branch calls
    db.get(identifier, required=True) (serializer.py 260) and the
    to-many branch db.get_many(identifiers, required=True)
    (serializer.py 268); a linkage not matching the relationship kind is
    out of the claim's scope and modeled as a TypeError. -/
def update_relationship (store : Store) (rel_to_one : Bool)
    (data : Option RelLinkage) : Except PyExc (Option RelValue) :=
  match data with
  | none => .ok none
  | some linkage =>
    if rel_to_one then
      match linkage with
      | .one none => .ok (some (.toOne none))
      | .one (some identifier) => do
          let r ← bulkSessionGet store identifier ["required"]
          .ok (some (.toOne (r.map (·.ident))))
      | .many _ => .error (.typeError "linkage")
    else
      match linkage with
      | .many identifiers => do
          let pairs ← bulkSessionGetMany store identifiers ["required"]
          .ok (some (.toMany ((pairs.map Prod.snd).filterMap
            (fun o => o.map (·.ident)))))
      | .one _ => .error (.typeError "linkage")

/-- The mongoengine adapter Session.get
    (jsonapi/mongoengine/database.py 190-198): the behaviour the storage
    adapter contract describes - required and absent raises
    ResourceNotFound, otherwise the resource or None is returned. -/
def mongoSessionGet (store : Store) (identifier : Identifier)
    (required : Bool) : Except PyExc (Option Resource) :=
  let resource := storeGet store identifier
  if required && resource.isNone then
    .error (.japi (resourceNotFound identifier))
  else .ok resource

/-! Claims C1 and C2: the include resolver BulkSession.fetch_includes
(jsonapi/base/database.py 333-427). -/

/-- The attribute names the module jsonapi.base.errors defines
    (errors.py 40-61 and the class statements below them).  There is no
    IncludePathNotFound among them; the corresponding class is named
    UnresolvableIncludePath. -/
def errorsModuleAttrs : List String :=
  ["Error", "ErrorList", "error_to_response", "InternalServerError",
   "BadRequest", "Forbidden", "NotFound", "MethodNotAllowed",
   "NotAcceptable", "Conflict", "UnsupportedMediaType",
   "InvalidDocument", "UnresolvableIncludePath", "ReadOnlyAttribute",
   "ReadOnlyRelationship", "UnsortableField", "UnfilterableField",
   "RelationshipNotFound", "ResourceNotFound"]

/-- The raise statement at database.py 403,
    `raise errors.IncludePathNotFound(include_path)`: evaluating
    errors.IncludePathNotFound looks the name up on the errors module;
    were it defined, the raised error would be the 400
    UnresolvableIncludePath carrying the path, but the lookup of the
    undefined name raises AttributeError instead. -/
def raiseIncludePathNotFound (include_path : List String) : PyExc :=
  if errorsModuleAttrs.contains "IncludePathNotFound" then
    .japi (unresolvableIncludePath include_path)
  else .attributeError "IncludePathNotFound"

/-- The inner resource loop of fetch_includes (database.py 396-418):
    collect the set of identifiers related to the current resources
    through relationship_name.  The serializer helpers it calls are
    get_relative_id / get_relative_ids
    (jsonapi/marker/serializer.py 103-126, embedded as the resource's
    normalized relationship value) and has_relationship, which no
    serializer class in the sources defines; has_relationship is
    modelled from the spec as membership of the relationship name in the
    schema's relationship dict.  A None in curr_resources (an
    unresolved relative of the previous step) makes
    api.get_typename(None) (api.py 251-269) raise KeyError. -/
def relativeIdentifiersStep (include_path : List String)
    (relationship_name : String) :
    List (Option Resource) → List Identifier → Except PyExc (List Identifier)
  | [], acc => .ok acc
  | none :: _, _ => .error (.keyError "get_typename")
  | some r :: rest, acc =>
    match lookupA r.rels relationship_name with
    | none => .error (raiseIncludePathNotFound include_path)
    | some (.toOne none) =>
        relativeIdentifiersStep include_path relationship_name rest acc
    | some (.toOne (some i)) =>
        relativeIdentifiersStep include_path relationship_name rest (setAdd acc i)
    | some (.toMany is) =>
        relativeIdentifiersStep include_path relationship_name rest (setUnion acc is)

/-- BulkSession.get_many as fetch_includes calls it (database.py 421,
    without required): the result maps every requested identifier to the
    found resource or None (database.py 316-331 groups the identifiers
    by adapter and unions the per-adapter dicts, which nets to exactly
    this mapping). -/
def get_many (store : Store) (identifiers : List Identifier) :
    List (Identifier × Option Resource) :=
  identifiers.map (fun i => (i, storeGet store i))

/-- The walk along one include path (database.py 394-426): at each
    relationship name collect the related identifiers of the current
    resources, fetch them in one get_many call, merge them into the
    result dict, and continue with list(relatives.values()). -/
def followIncludePath (store : Store) (include_path : List String) :
    List String → List (Option Resource) →
    List (Identifier × Option Resource) →
    Except PyExc (List (Identifier × Option Resource))
  | [], _, result => .ok result
  | relationship_name :: rest, curr, result => do
      let ids ← relativeIdentifiersStep include_path relationship_name curr []
      let relatives := get_many store ids
      followIncludePath store include_path rest (relatives.map Prod.snd)
        (dictUpdate result relatives)

/-- The outer loop of fetch_includes (database.py 388-427): walk every
    include path, starting each from the root resources, accumulating
    into one result dict. -/
def fetch_includes_go (store : Store) (resources : List Resource) :
    List (List String) → List (Identifier × Option Resource) →
    Except PyExc (List (Identifier × Option Resource))
  | [], result => .ok result
  | include_path :: rest, result => do
      let result ← followIncludePath store include_path include_path
        (resources.map some) result
      fetch_includes_go store resources rest result

/-- BulkSession.fetch_includes (database.py 333-427). -/
def fetch_includes (store : Store) (resources : List Resource)
    (include_paths : List (List String)) :
    Except PyExc (List (Identifier × Option Resource)) :=
  fetch_includes_go store resources include_paths []

/-! The reachability specification the claim compares fetch_includes
against: the identifiers reached after each non-empty prefix of a
path. -/

/-- The identifiers one resource relates to through one relationship
    name (none when the name is absent - the walk validity hypothesis
    excludes that case). -/
def relTargets (r : Resource) (relationship_name : String) : List Identifier :=
  match lookupA r.rels relationship_name with
  | some (.toOne (some i)) => [i]
  | some (.toMany is) => is
  | _ => []

/-- The deduplicated identifiers one traversal step reaches from a set
    of resources. -/
def stepIds (curr : List Resource) (relationship_name : String) : List Identifier :=
  curr.foldl (fun acc r => setUnion acc (relTargets r relationship_name)) []

/-- The identifier sets reached after 1, 2, ... steps of one include
    path, starting from *curr*. -/
def pathLevels (store : Store) : List String → List Resource → List (List Identifier)
  | [], _ => []
  | n :: rest, curr =>
      stepIds curr n :: pathLevels store rest ((stepIds curr n).filterMap (storeGet store))

/-- All identifiers reachable from the roots along a non-empty prefix
    of some include path. -/
def reachIds (store : Store) (resources : List Resource)
    (include_paths : List (List String)) : List Identifier :=
  (include_paths.map (fun p => (pathLevels store p resources).flatten)).flatten

/-- Validity of one walk: every resource met along the path has the
    required relationship name, and every related identifier resolves in
    the store. -/
def walkOkPath (store : Store) : List String → List Resource → Bool
  | [], _ => true
  | n :: rest, curr =>
      curr.all (fun r => (lookupA r.rels n).isSome)
      && (stepIds curr n).all (fun i => (storeGet store i).isSome)
      && walkOkPath store rest ((stepIds curr n).filterMap (storeGet store))

/-- Validity of all include paths against the roots. -/
def walkOk (store : Store) (resources : List Resource)
    (include_paths : List (List String)) : Bool :=
  include_paths.all (fun p => walkOkPath store p resources)

/-! Concrete inputs used when the claims are evaluated on examples. -/

/-- A User resource with id 1 and no fields. -/
def demoUser : Resource := { ident := ⟨"User", "1"⟩, attrs := [], rels := [] }

/-- A store holding only demoUser. -/
def demoUserStore : Store := [demoUser]

/-- A Post resource whose schema has a comments relationship but no
    author relationship. -/
def demoPost : Resource :=
  { ident := ⟨"Post", "1"⟩, attrs := [], rels := [("comments", .toMany [])] }

/-- A store holding only demoPost. -/
def demoPostStore : Store := [demoPost]

/-- An author shared by the article and both comments below. -/
def demoAuthor : Resource := { ident := ⟨"User", "7"⟩, attrs := [], rels := [] }

/-- A comment written by demoAuthor. -/
def demoComment1 : Resource :=
  { ident := ⟨"Comment", "1"⟩, attrs := [],
    rels := [("author", .toOne (some ⟨"User", "7"⟩))] }

/-- A second comment written by demoAuthor. -/
def demoComment2 : Resource :=
  { ident := ⟨"Comment", "2"⟩, attrs := [],
    rels := [("author", .toOne (some ⟨"User", "7"⟩))] }

/-- An article with two comments and an author. -/
def demoArticle : Resource :=
  { ident := ⟨"Article", "1"⟩, attrs := [],
    rels := [("author", .toOne (some ⟨"User", "7"⟩)),
             ("comments", .toMany [⟨"Comment", "1"⟩, ⟨"Comment", "2"⟩])] }

/-- The store for the include-resolution example. -/
def demoArticleStore : Store := [demoArticle, demoComment1, demoComment2, demoAuthor]

/-- The include paths comments.author and author, whose walks share
    demoAuthor. -/
def demoIncludePaths : List (List String) := [["comments", "author"], ["author"]]

/-- A schema-attribute table for the update_attributes example: setter a
    records its value, setters b and c reject every value. -/
def demoSetters : List (String × (JVal → List (String × JVal) → SetResult (List (String × JVal)))) :=
  [("a", fun v st => .ok (st ++ [("a", v)])),
   ("b", fun _ _ => .raiseError (badRequestError "b rejected" none)),
   ("c", fun _ _ => .raiseError (badRequestError "c rejected" none))]

/-- An attributes object hitting the failing setter b first, then the
    succeeding setter a, then the failing setter c. -/
def demoAttributesObject : List (String × JVal) :=
  [("b", .null), ("a", .num 1), ("c", .null)]

/-- A serializer schema for the Article resources above: one title
    attribute, and the author/comments relationship markers reading the
    resource's relationship values (dict insertion order deliberately
    unsorted). -/
def demoC6Schema : Schema Resource :=
  { typename := "Article"
    idGet := fun r => r.ident.rid
    attributes := [("title", fun _ => .str "Hello")]
    relationships :=
      [("comments", fun r => (lookupA r.rels "comments").getD (.toMany [])),
       ("author", fun r => (lookupA r.rels "author").getD (.toOne none))] }

/-- An article with an empty to-one author and no comments. -/
def demoEmptyArticle : Resource :=
  { ident := ⟨"Article", "2"⟩, attrs := [],
    rels := [("author", .toOne none), ("comments", .toMany [])] }

/-! Helper lemmas about the dict and set embeddings. -/

theorem mem_setAdd {α : Type} [DecidableEq α] (s : List α) (a x : α) :
    x ∈ setAdd s a ↔ x ∈ s ∨ x = a := by
  unfold setAdd
  split
  · rename_i h
    constructor
    · exact Or.inl
    · rintro (hx | rfl)
      · exact hx
      · exact h
  · simp [List.mem_append]

theorem nodup_setAdd {α : Type} [DecidableEq α] (s : List α) (a : α)
    (h : s.Nodup) : (setAdd s a).Nodup := by
  unfold setAdd
  split
  · exact h
  · rename_i ha
    simp [List.nodup_append, h, ha]

theorem mem_setUnion {α : Type} [DecidableEq α] (ts : List α) :
    ∀ (s : List α) (x : α), x ∈ setUnion s ts ↔ x ∈ s ∨ x ∈ ts := by
  induction ts with
  | nil => intro s x; simp [setUnion]
  | cons t ts ih =>
    intro s x
    show x ∈ setUnion (setAdd s t) ts ↔ _
    rw [ih, mem_setAdd]
    simp [or_assoc]

theorem nodup_setUnion {α : Type} [DecidableEq α] (ts : List α) :
    ∀ s : List α, s.Nodup → (setUnion s ts).Nodup := by
  induction ts with
  | nil => intro s h; exact h
  | cons t ts ih =>
    intro s h
    exact ih (setAdd s t) (nodup_setAdd s t h)

theorem keys_dictInsert {α β : Type} [DecidableEq α] (d : List (α × β)) (k : α) (v : β) :
    (dictInsert d k v).map Prod.fst =
      if k ∈ d.map Prod.fst then d.map Prod.fst else d.map Prod.fst ++ [k] := by
  unfold dictInsert
  split
  · rw [List.map_map]
    apply List.map_congr_left
    intro p _
    by_cases hp : p.1 = k
    · simp [hp]
    · simp [hp]
  · simp

theorem mem_keys_dictInsert {α β : Type} [DecidableEq α] (d : List (α × β))
    (k x : α) (v : β) :
    x ∈ (dictInsert d k v).map Prod.fst ↔ x ∈ d.map Prod.fst ∨ x = k := by
  rw [keys_dictInsert]
  split
  · rename_i h
    constructor
    · exact Or.inl
    · rintro (hx | rfl)
      · exact hx
      · exact h
  · simp [List.mem_append]

theorem nodup_keys_dictInsert {α β : Type} [DecidableEq α] (d : List (α × β))
    (k : α) (v : β) (h : (d.map Prod.fst).Nodup) :
    ((dictInsert d k v).map Prod.fst).Nodup := by
  rw [keys_dictInsert]
  split
  · exact h
  · rename_i hk
    simp [List.nodup_append, h, hk]

theorem dictUpdate_nil {α β : Type} [DecidableEq α] (d : List (α × β)) :
    dictUpdate d [] = d := rfl

theorem dictUpdate_cons {α β : Type} [DecidableEq α] (d : List (α × β))
    (p : α × β) (rest : List (α × β)) :
    dictUpdate d (p :: rest) = dictUpdate (dictInsert d p.1 p.2) rest := rfl

theorem mem_keys_dictUpdate {α β : Type} [DecidableEq α] (d₂ : List (α × β)) :
    ∀ (d₁ : List (α × β)) (x : α),
      x ∈ (dictUpdate d₁ d₂).map Prod.fst ↔
        x ∈ d₁.map Prod.fst ∨ x ∈ d₂.map Prod.fst := by
  induction d₂ with
  | nil => intro d₁ x; simp [dictUpdate_nil]
  | cons p rest ih =>
    intro d₁ x
    rw [dictUpdate_cons, ih, mem_keys_dictInsert]
    simp [or_assoc]

theorem nodup_keys_dictUpdate {α β : Type} [DecidableEq α] (d₂ : List (α × β)) :
    ∀ d₁ : List (α × β), (d₁.map Prod.fst).Nodup →
      ((dictUpdate d₁ d₂).map Prod.fst).Nodup := by
  induction d₂ with
  | nil => intro d₁ h; simpa [dictUpdate_nil] using h
  | cons p rest ih =>
    intro d₁ h
    rw [dictUpdate_cons]
    exact ih _ (nodup_keys_dictInsert d₁ p.1 p.2 h)

/-- C10: for every request body, Request.json returns the parsed
    document and has_json is True when the body decodes and parses as
    JSON, and returns None with has_json False otherwise; the accessor
    itself never lets an exception escape (the result is always .ok). -/
theorem request_json_invalid_body (loadJson : String → Option JVal) (body : ReqBody) :
    requestJson loadJson body
      = .ok ((decodeBody body).bind loadJson,
             ((decodeBody body).bind loadJson).isSome) := by
  unfold requestJson requestJsonTry
  cases h : decodeBody body with
  | none => simp [caughtByRequestJson]
  | some text =>
    cases hl : loadJson text with
    | none => simp [hl, caughtByRequestJson]
    | some j => simp [hl]

/-- C4: the claim's operator vocabulary includes match and size, but the
    VALUE_RE of Request.japi_filters omits both, and the branch for a
    filter key whose value matches no operator dereferences the failed
    match, so filter[name]=match:"Homer" (and size alike) raises
    AttributeError instead of yielding the triple; operators that are in
    the regular expression, such as eq, do yield (field, op, value). -/
theorem filter_match_operator_missing :
    (∀ loadJson : String → Option JVal,
      japiFilters loadJson [("filter[name]", "match:\"Homer\"")]
        = .error (.attributeError "group"))
    ∧ (∀ loadJson : String → Option JVal,
      japiFilters loadJson [("filter[age]", "size:2")]
        = .error (.attributeError "group"))
    ∧ japiFilters (fun s => if s = "42" then some (.num 42) else none)
        [("filter[age]", "eq:42")]
      = .ok [("age", "eq", .num 42)]
    ∧ valueReOps.contains "match" = false
    ∧ valueReOps.contains "size" = false :=
  ⟨fun _ => rfl, fun _ => rfl, rfl, rfl, rfl⟩

/-- C7: at the dispatch boundary a raised Error is converted (debug off)
    into an error-document response carrying its HTTP status, re-raised
    when debug is on, and a non-Error exception always propagates; but a
    raised ErrorList is not converted - error_to_response reads the
    http_status attribute that ErrorList does not define, so the
    conversion itself raises AttributeError. -/
theorem error_list_response_attribute_error :
    handle_request false (.error (.japiList [badRequestError "" none]))
      = .error (.attributeError "http_status")
    ∧ handle_request false (.error (.japi notFoundError))
      = .ok { status := 404,
              headers := [("content-type", "application/vnd.api+json")],
              body := some (.obj [("errors", .arr
                [.obj [("status", .num 404), ("title", .str "NotFound")]])]) }
    ∧ handle_request true (.error (.japi notFoundError))
      = .error (.japi notFoundError)
    ∧ handle_request true (.error (.japiList [badRequestError "" none]))
      = .error (.japiList [badRequestError "" none])
    ∧ handle_request false (.error (.typeError "boom"))
      = .error (.typeError "boom")
    ∧ (∀ debug r, handle_request debug (.ok r) = .ok r) :=
  ⟨rfl, rfl, rfl, rfl, rfl, fun debug r => by cases debug <;> rfl⟩

/-- C9: GET /api/User/42 with no such User cannot produce the claimed
    404 response: API.handle_request constructs the ResourceHandler with
    a db keyword its __init__ does not accept, so the request dies with
    a TypeError that propagates; prepare would anyway read the
    undefined request.media_type first; and even the intended NotFound
    document would carry the integer 404, not the string "404", as
    errors[0].status. -/
theorem resource_404_scenario_broken :
    constructResourceHandler
      = .error (.typeError "init got an unexpected keyword argument db")
    ∧ handle_request false
        (resourceGetPipeline demoUserStore true ⟨"User", "42"⟩
          (fun _ => { status := 200, headers := [], body := none }))
      = .error (.typeError "init got an unexpected keyword argument db")
    ∧ resourceHandlerPrepare demoUserStore true ⟨"User", "42"⟩
      = .error (.attributeError "media_type")
    ∧ error_to_response (.single notFoundError)
      = .ok { status := 404,
              headers := [("content-type", "application/vnd.api+json")],
              body := some (.obj [("errors", .arr
                [.obj [("status", .num 404), ("title", .str "NotFound")]])]) }
    ∧ errorJson notFoundError
      = .ok (.obj [("status", .num 404), ("title", .str "NotFound")])
    ∧ JVal.num 404 ≠ JVal.str "404" :=
  ⟨rfl, rfl, rfl, rfl, rfl, fun h => JVal.noConfusion h⟩

/-- C2: resolving an include path whose relationship name is absent on
    the schema does not raise the claimed IncludePathNotFound with a 400
    response: the errors module defines no attribute of that name (the
    class that exists is the 400 UnresolvableIncludePath), so the raise
    statement itself raises AttributeError, which handle_request
    re-raises instead of converting into any response. -/
theorem include_path_attribute_error :
    errorsModuleAttrs.contains "IncludePathNotFound" = false
    ∧ errorsModuleAttrs.contains "UnresolvableIncludePath" = true
    ∧ (unresolvableIncludePath ["author"]).http_status = 400
    ∧ fetch_includes demoPostStore [demoPost] [["author"]]
      = .error (.attributeError "IncludePathNotFound")
    ∧ handle_request false (.error (.attributeError "IncludePathNotFound"))
      = .error (.attributeError "IncludePathNotFound") :=
  ⟨rfl, rfl, rfl, rfl, rfl⟩

/-- C3: BulkSession.get and get_many accept no required parameter, so
    the calls get(identifier, required=True) and
    get_many(identifiers, required=True) issued by
    Unserializer.update_relationship raise TypeError instead of
    returning the resource or raising ResourceNotFound; the mongoengine
    adapter session implements the behaviour the claim describes. -/
theorem bulk_get_required_type_error :
    bulkSessionGet demoUserStore ⟨"User", "42"⟩ ["required"]
      = .error (.typeError "get got an unexpected keyword argument required")
    ∧ update_relationship demoUserStore true (some (.one (some ⟨"User", "42"⟩)))
      = .error (.typeError "get got an unexpected keyword argument required")
    ∧ update_relationship demoUserStore false (some (.many [⟨"User", "42"⟩]))
      = .error (.typeError "get_many got an unexpected keyword argument required")
    ∧ mongoSessionGet demoUserStore ⟨"User", "1"⟩ true = .ok (some demoUser)
    ∧ mongoSessionGet demoUserStore ⟨"User", "42"⟩ true
      = .error (.japi (resourceNotFound ⟨"User", "42"⟩))
    ∧ mongoSessionGet demoUserStore ⟨"User", "42"⟩ false = .ok none :=
  ⟨rfl, rfl, rfl, rfl, rfl, rfl⟩

/-- The natural-number total_pages of Pagination equals the ceiling of
    the rational total_resources / page_size. -/
theorem totalPages_eq_ceil (total size : Nat) (h : 0 < size) :
    (total + size - 1) / size = ⌈(total : ℚ) / (size : ℚ)⌉₊ := by
  have hq : (0 : ℚ) < size := by exact_mod_cast h
  have h1 : ∀ c : Nat, (total + size - 1) / size ≤ c ↔ total ≤ size * c := by
    intro c
    rw [Nat.div_le_iff_le_mul_add_pred h]
    generalize size * c = m
    omega
  have h2 : ∀ c : Nat, ⌈(total : ℚ) / (size : ℚ)⌉₊ ≤ c ↔ total ≤ size * c := by
    intro c
    rw [Nat.ceil_le, div_le_iff₀ hq,
      show ((c : ℚ) * size) = ((size * c : ℕ) : ℚ) by push_cast; ring,
      Nat.cast_le]
  exact le_antisymm ((h1 _).2 ((h2 _).1 le_rfl)) ((h2 _).2 ((h1 _).1 le_rfl))

/-- C8: with page-based pagination active, meta carries total-pages =
    ceil(total_resources / page_size) along with total-resources, page
    and page-size; links always carries self, first and last, carries
    prev exactly when the page number exceeds 1 and next exactly when it
    is below total-pages. -/
theorem pagination_meta_and_links (page size total : Nat) (h : 0 < size) :
    lookupA (Pagination.make page size total).json_meta "total-pages"
      = some (.num (Pagination.make page size total).total_pages)
    ∧ (Pagination.make page size total).total_pages = ⌈(total : ℚ) / (size : ℚ)⌉₊
    ∧ lookupA (Pagination.make page size total).json_meta "total-resources"
      = some (.num total)
    ∧ lookupA (Pagination.make page size total).json_meta "page" = some (.num page)
    ∧ lookupA (Pagination.make page size total).json_meta "page-size"
      = some (.num size)
    ∧ "self" ∈ (Pagination.make page size total).json_links.map Prod.fst
    ∧ "first" ∈ (Pagination.make page size total).json_links.map Prod.fst
    ∧ "last" ∈ (Pagination.make page size total).json_links.map Prod.fst
    ∧ ("prev" ∈ (Pagination.make page size total).json_links.map Prod.fst ↔ 1 < page)
    ∧ ("next" ∈ (Pagination.make page size total).json_links.map Prod.fst ↔
        page < (Pagination.make page size total).total_pages) := by
  refine ⟨rfl, totalPages_eq_ceil total size h, rfl, rfl, rfl, ?_, ?_, ?_, ?_, ?_⟩
  · simp [Pagination.json_links]
  · simp [Pagination.json_links]
  · simp [Pagination.json_links]
  · by_cases hp : 1 < page <;>
      simp [Pagination.json_links, Pagination.make, hp]
  · by_cases hn : page < (total + size - 1) / size <;>
      simp [Pagination.json_links, Pagination.make, hn]

/-- Witness for C8 at page 2, size 10, total 25 (total-pages 3). -/
theorem pagination_meta_and_links_witness :
    0 < 10
    ∧ (Pagination.make 2 10 25).total_pages
      = ⌈((25 : ℕ) : ℚ) / ((10 : ℕ) : ℚ)⌉₊ :=
  ⟨by norm_num, (pagination_meta_and_links 2 10 25 (by norm_num)).2.1⟩

/-- Mapping Prod.fst over a list tagged as (name, g name) pairs gives
    the names back. -/
theorem map_fst_tag {α β : Type} (l : List α) (g : α → β) :
    (l.map (fun name => (name, g name))).map Prod.fst = l := by
  induction l with
  | nil => rfl
  | cons a t ih => simpa using ih

/-- Mapping Prod.snd over a list tagged as (name, g name) pairs gives
    the values. -/
theorem map_snd_tag {α β : Type} (l : List α) (g : α → β) :
    (l.map (fun name => (name, g name))).map Prod.snd = l.map g := by
  induction l with
  | nil => rfl
  | cons a t ih => simp [ih]

/-- When g is defined on every element, mapping g equals filtering the
    some results and re-wrapping them. -/
theorem map_eq_filterMap_of_isSome {α β : Type} (g : α → Option β) :
    ∀ l : List α, (∀ x ∈ l, (g x).isSome = true) →
      l.map g = (l.filterMap g).map some := by
  intro l
  induction l with
  | nil => intro _; rfl
  | cons a t ih =>
    intro h
    obtain ⟨b, hb⟩ := Option.isSome_iff_exists.mp (h a (List.mem_cons_self a t))
    have ht := fun x hx => h x (List.mem_cons_of_mem a hx)
    simp [hb, ih ht]

/-- C6: serialize_attributes always emits its keys in sorted order, but
    the claimed sorted-key document is not produced for every resource:
    serialize_relationship passes one argument to the two-parameter
    utilities.ensure_identifier_object, so any populated linkage raises
    TypeError and serialize_resource yields no document at all; only
    resources whose selected relationships are all empty (to-one null,
    to-many []) serialize, and for those the relationship keys do come
    out sorted. -/
theorem serialize_relationship_type_error :
    (∀ (ρ : Type) (schema : Schema ρ) (resource : ρ)
        (fields : Option (List String)),
      ((serialize_attributes schema resource fields).map Prod.fst).Sorted (· ≤ ·))
    ∧ ensureIdentifierObjectParams.length = 2
    ∧ ensure_identifier_object_call1 ⟨"User", "7"⟩
      = .error (.typeError "ensure_identifier_object missing argument obj")
    ∧ serialize_resource demoC6Schema demoArticle none
      = .error (.typeError "ensure_identifier_object missing argument obj")
    ∧ serialize_relationships demoC6Schema demoEmptyArticle none
      = .ok [("author", .obj [("data", .null)]),
             ("comments", .obj [("data", .arr [])])]
    ∧ serialize_resource demoC6Schema demoEmptyArticle none
      = .ok [("type", .str "Article"), ("id", .str "2"),
             ("attributes", .obj [("title", .str "Hello")]),
             ("relationships", .obj
               [("author", .obj [("data", .null)]),
                ("comments", .obj [("data", .arr [])])])] := by
  have hsort : (["comments", "author"].insertionSort (· ≤ ·)) = ["author", "comments"] := by
    simp [List.insertionSort, List.orderedInsert]
    decide
  have hrels1 : serialize_relationships demoC6Schema demoArticle none
      = .error (.typeError "ensure_identifier_object missing argument obj") := by
    unfold serialize_relationships
    rw [show demoC6Schema.relationships.map Prod.fst = ["comments", "author"] from rfl,
      hsort]
    rfl
  have hrels2 : serialize_relationships demoC6Schema demoEmptyArticle none
      = .ok [("author", .obj [("data", .null)]),
             ("comments", .obj [("data", .arr [])])] := by
    unfold serialize_relationships
    rw [show demoC6Schema.relationships.map Prod.fst = ["comments", "author"] from rfl,
      hsort]
    rfl
  refine ⟨?_, rfl, rfl, ?_, hrels2, ?_⟩
  · intro ρ schema resource fields
    have hkeys : (serialize_attributes schema resource fields).map Prod.fst
        = ((schema.attributes.map Prod.fst).insertionSort (· ≤ ·)).filter
            (fieldIncluded fields) := by
      unfold serialize_attributes
      exact map_fst_tag _ _
    rw [hkeys]
    exact List.Pairwise.filter _ (List.sorted_insertionSort _ _)
  · unfold serialize_resource
    rw [hrels1]
    rfl
  · unfold serialize_resource
    rw [hrels2]
    rfl

/-- C5: update_attributes does not report failures together: the first
    failing attribute setter makes error_list.append run del self.json
    on the never-computed json cached_property, which raises
    AttributeError, so the loop aborts at the first failure without
    attempting the remaining fields and no ErrorList is ever raised.
    Only the no-failure part of the claim holds (no exception when every
    setter succeeds); appending to an ErrorList whose json cache has
    been materialized does succeed, confirming the cache-invalidation
    line is the sole obstacle. -/
theorem update_attributes_first_failure_attribute_error :
    errorListAppend errorListNew (badRequestError "" none)
      = .error (.attributeError "json")
    ∧ errorListExtend errorListNew [badRequestError "" none]
      = .error (.attributeError "json")
    ∧ update_attributes demoSetters [] demoAttributesObject
      = .error (.attributeError "json")
    ∧ update_attributes demoSetters [] [("a", .num 5)]
      = .ok [("a", .num 5)]
    ∧ update_attributes demoSetters [] [] = .ok []
    ∧ errorListAppend { errors := [], jsonCached := true } notFoundError
      = .ok { errors := [notFoundError], jsonCached := false } :=
  ⟨rfl, rfl, rfl, rfl, rfl, rfl⟩

/-- Membership in the step fold: an identifier is collected exactly
    when it was already in the accumulator or is a relative of one of
    the resources. -/
theorem mem_stepFold (n : String) (i : Identifier) :
    ∀ (curr : List Resource) (acc : List Identifier),
      i ∈ curr.foldl (fun a r => setUnion a (relTargets r n)) acc ↔
        i ∈ acc ∨ ∃ r ∈ curr, i ∈ relTargets r n := by
  intro curr
  induction curr with
  | nil => intro acc; simp
  | cons r rest ih =>
    intro acc
    rw [List.foldl_cons, ih, mem_setUnion]
    simp [or_assoc]

/-- The step fold preserves duplicate-freeness of the accumulator. -/
theorem nodup_stepFold (n : String) :
    ∀ (curr : List Resource) (acc : List Identifier), acc.Nodup →
      (curr.foldl (fun a r => setUnion a (relTargets r n)) acc).Nodup := by
  intro curr
  induction curr with
  | nil => intro acc h; exact h
  | cons r rest ih =>
    intro acc h
    exact ih _ (nodup_setUnion _ _ h)

/-- The deduplicated identifiers one step reaches. -/
theorem mem_stepIds (curr : List Resource) (n : String) (i : Identifier) :
    i ∈ stepIds curr n ↔ ∃ r ∈ curr, i ∈ relTargets r n := by
  unfold stepIds
  rw [mem_stepFold]
  simp

/-- stepIds is duplicate-free. -/
theorem nodup_stepIds (curr : List Resource) (n : String) :
    (stepIds curr n).Nodup :=
  nodup_stepFold n curr [] List.nodup_nil

/-- On resources that all carry the relationship, the resource loop of
    fetch_includes computes exactly the step fold (and in particular
    raises nothing). -/
theorem relativeIdentifiersStep_ok (ip : List String) (n : String) :
    ∀ (curr : List Resource) (acc : List Identifier),
      (∀ r ∈ curr, (lookupA r.rels n).isSome = true) →
      relativeIdentifiersStep ip n (curr.map some) acc
        = .ok (curr.foldl (fun a r => setUnion a (relTargets r n)) acc) := by
  intro curr
  induction curr with
  | nil => intro acc _; rfl
  | cons r rest ih =>
    intro acc h
    have hr := h r (List.mem_cons_self r rest)
    have ht : ∀ x ∈ rest, (lookupA x.rels n).isSome = true :=
      fun x hx => h x (List.mem_cons_of_mem r hx)
    cases hl : lookupA r.rels n with
    | none => rw [hl] at hr; cases hr
    | some rv =>
      cases rv with
      | toOne t =>
        cases t with
        | none =>
          simp only [List.map_cons, relativeIdentifiersStep, hl, List.foldl_cons]
          rw [ih _ ht]
          simp [relTargets, hl, setUnion]
        | some i =>
          simp only [List.map_cons, relativeIdentifiersStep, hl, List.foldl_cons]
          rw [ih _ ht]
          simp [relTargets, hl, setUnion]
      | toMany is =>
        simp only [List.map_cons, relativeIdentifiersStep, hl, List.foldl_cons]
        rw [ih _ ht]
        simp [relTargets, hl]

/-- The walk along one include path, on a valid walk: it completes, and
    the keys of the result dict are the keys it started with plus every
    identifier of every traversal level. -/
theorem followIncludePath_ok (store : Store) (ip : List String) :
    ∀ (path : List String) (curr : List Resource)
      (result : List (Identifier × Option Resource)),
      walkOkPath store path curr = true →
      (result.map Prod.fst).Nodup →
      ∃ d, followIncludePath store ip path (curr.map some) result = .ok d
        ∧ (∀ i : Identifier, i ∈ d.map Prod.fst ↔
            i ∈ result.map Prod.fst ∨ i ∈ (pathLevels store path curr).flatten)
        ∧ (d.map Prod.fst).Nodup := by
  intro path
  induction path with
  | nil =>
    intro curr result _ hnd
    exact ⟨result, rfl, fun i => by simp [pathLevels], hnd⟩
  | cons n rest ih =>
    intro curr result hwalk hnd
    simp only [walkOkPath, Bool.and_eq_true, List.all_eq_true] at hwalk
    obtain ⟨⟨h1, h2⟩, h3⟩ := hwalk
    have hstep := relativeIdentifiersStep_ok ip n curr [] h1
    have hsnd : (get_many store (stepIds curr n)).map Prod.snd
        = ((stepIds curr n).filterMap (storeGet store)).map some := by
      unfold get_many
      rw [map_snd_tag]
      exact map_eq_filterMap_of_isSome (storeGet store) (stepIds curr n) h2
    have hfst : (get_many store (stepIds curr n)).map Prod.fst = stepIds curr n :=
      map_fst_tag _ _
    obtain ⟨d, hd, hmem, hndd⟩ := ih ((stepIds curr n).filterMap (storeGet store))
      (dictUpdate result (get_many store (stepIds curr n))) h3
      (nodup_keys_dictUpdate _ _ hnd)
    refine ⟨d, ?_, ?_, hndd⟩
    · simp only [followIncludePath]
      rw [hstep]
      show followIncludePath store ip rest
        ((get_many store (stepIds curr n)).map Prod.snd) _ = .ok d
      rw [hsnd]
      exact hd
    · intro i
      rw [hmem i, mem_keys_dictUpdate, hfst]
      simp only [pathLevels, List.flatten_cons, List.mem_append]
      tauto

/-- The outer loop over all include paths, on valid walks. -/
theorem fetch_includes_go_ok (store : Store) (resources : List Resource) :
    ∀ (paths : List (List String)) (result : List (Identifier × Option Resource)),
      (∀ p ∈ paths, walkOkPath store p resources = true) →
      (result.map Prod.fst).Nodup →
      ∃ d, fetch_includes_go store resources paths result = .ok d
        ∧ (∀ i : Identifier, i ∈ d.map Prod.fst ↔
            i ∈ result.map Prod.fst ∨ i ∈ reachIds store resources paths)
        ∧ (d.map Prod.fst).Nodup := by
  intro paths
  induction paths with
  | nil =>
    intro result _ hnd
    exact ⟨result, rfl, fun i => by simp [reachIds], hnd⟩
  | cons p rest ih =>
    intro result h hnd
    obtain ⟨d₁, hd₁, hmem₁, hnd₁⟩ := followIncludePath_ok store p p resources result
      (h p (List.mem_cons_self p rest)) hnd
    obtain ⟨d, hd, hmem, hndd⟩ := ih d₁
      (fun q hq => h q (List.mem_cons_of_mem p hq)) hnd₁
    refine ⟨d, ?_, ?_, hndd⟩
    · simp only [fetch_includes_go]
      rw [hd₁]
      exact hd
    · intro i
      rw [hmem i, hmem₁ i]
      simp only [reachIds, List.map_cons, List.flatten_cons, List.mem_append]
      rw [show (List.map (fun q => (pathLevels store q resources).flatten) rest).flatten
          = reachIds store resources rest from rfl]
      tauto

/-- C1: on valid include paths over a closed store, fetch_includes
    returns a map whose keys are exactly the identifiers reachable from
    the root resources along a non-empty prefix of some include path,
    each exactly once (the key list is duplicate-free), however many
    roots or paths share relatives.  The has_relationship test it runs
    is modelled from the spec as membership in the schema's relationship
    dict, since no serializer class in the sources defines it. -/
theorem fetch_includes_keys_reachable (store : Store) (resources : List Resource)
    (include_paths : List (List String))
    (h : walkOk store resources include_paths = true) :
    ∃ d, fetch_includes store resources include_paths = .ok d
      ∧ (∀ i : Identifier, i ∈ d.map Prod.fst ↔
          i ∈ reachIds store resources include_paths)
      ∧ (d.map Prod.fst).Nodup := by
  have h' : ∀ p ∈ include_paths, walkOkPath store p resources = true := by
    simpa [walkOk, List.all_eq_true] using h
  obtain ⟨d, hd, hmem, hnd⟩ :=
    fetch_includes_go_ok store resources include_paths [] h' (by simp)
  exact ⟨d, hd, fun i => by simpa using hmem i, hnd⟩

/-- Witness for C1: an article with two comments and one shared author,
    resolved along comments.author and author; the shared author
    appears exactly once. -/
theorem fetch_includes_keys_reachable_witness :
    walkOk demoArticleStore [demoArticle] demoIncludePaths = true
    ∧ ∃ d, fetch_includes demoArticleStore [demoArticle] demoIncludePaths = .ok d
      ∧ (∀ i : Identifier, i ∈ d.map Prod.fst ↔
          i ∈ reachIds demoArticleStore [demoArticle] demoIncludePaths)
      ∧ (d.map Prod.fst).Nodup :=
  ⟨by decide, fetch_includes_keys_reachable _ _ _ (by decide)⟩

end PyJsonApi

